import Mathlib

/-!
Shallow embedding of the process-lifecycle and debugging-session subsystem of
`electron-debug-mcp` (`src/index.ts`, `src/resourceRouting.ts`).

Modelling conventions:
* Time is in milliseconds, as `Nat` (JavaScript `Date.now()` / `Date.getTime()`).
* The store `Map<string, ElectronProcess>` is an association list with unique
  keys; `storeGet` / `storeSet` / `storeDelete` mirror `Map.get` / `Map.set` /
  `Map.delete`.
* External I/O (the `/json/list` discovery fetch, opening a CDP connection,
  `client.send`) is supplied by an oracle structure `CDPEnv`; an `Except.error`
  of the oracle corresponds to the promise rejecting (a thrown error or a
  non-2xx response at the call site).
* Stateful functions return their result together with the post-state of the
  mutated record/store, since the TypeScript mutates records in place.
* Thrown errors are classified by an inductive `CdpError` / `StartError` whose
  constructors correspond one-to-one to the `throw` sites of the source.
-/

namespace ElectronDebugMcp

/-- One debuggable context, as returned by the `/json/list` discovery call
(`interface CDPTarget` in `src/index.ts`). -/
structure CDPTarget where
  id : String
  type : String
  title : String
  url : String
  webSocketDebuggerUrl : Option String
  deriving Repr, DecidableEq

/-- `'running' | 'stopped' | 'crashed'` status of a supervised process. -/
inductive ProcStatus
  | running
  | stopped
  | crashed
  deriving Repr, DecidableEq

/-- One supervised application instance (`interface ElectronProcess`).
The `process: ChildProcess` handle is represented by its pid; the
`cdpClient` session handle is represented by an opaque numeric handle. -/
structure ElectronProcess where
  id : String
  name : String
  status : ProcStatus
  pid : Option Nat
  debugPort : Option Nat
  startTime : Nat
  logs : List String
  appPath : String
  cdpClient : Option Nat
  targets : Option (List CDPTarget)
  lastTargetUpdate : Option Nat
  deriving Repr, DecidableEq

/-- CDP command parameters (`Record<string, unknown>`), kept abstract as
string key/value pairs. -/
abbrev Params := List (String × String)

/-- A raw session reply (`unknown` in the source); kept opaque. -/
abbrev Reply := String

/-- Oracle for the external world: HTTP target discovery
(`fetch http://localhost:{port}/json/list`), CDP connection establishment
(`CDP({target, port})`) and command sending (`client.send`). An
`Except.error` models the corresponding promise rejecting. For `fetchList`
it covers a transport error, a non-2xx response (`!response.ok`) and a JSON
body that fails to parse, all of which throw before any record mutation. -/
structure CDPEnv where
  fetchList : Nat → Except String (List CDPTarget)
  connect : String → Nat → Except String Nat
  send : Nat → String → Params → Except String Reply

/-- Error taxonomy: each constructor corresponds to a `throw` site of the
source (`No debug port available`, discovery failure, `Target ... not found`,
connection failure, command-send failure). -/
inductive CdpError
  | noDebugPort
  | discoveryFailed (msg : String)
  | targetNotFound (targetId : String)
  | connectFailed (msg : String)
  | sendFailed (msg : String)
  deriving Repr, DecidableEq

/-- The in-memory `Map<string, ElectronProcess>` process record store. -/
abbrev Store := List (String × ElectronProcess)

/-- `Map.get`: first (and, with unique keys, only) binding for `id`. -/
def storeGet (st : Store) (id : String) : Option ElectronProcess :=
  (st.find? (fun kv => kv.1 == id)).map (fun kv => kv.2)

/-- `Map.set`: replace an existing binding in place, else append. -/
def storeSet (st : Store) (id : String) (p : ElectronProcess) : Store :=
  if st.any (fun kv => kv.1 == id) then
    st.map (fun kv => if kv.1 == id then (id, p) else kv)
  else
    st ++ [(id, p)]

/-- `Map.delete`: remove the binding for `id`. -/
def storeDelete (st : Store) (id : String) : Store :=
  st.filter (fun kv => !(kv.1 == id))

/-! ## Log capture (`addLog` inside `startElectronApp`) -/

/-- `const MAX_LOG_ENTRIES = 1000`. -/
def MAX_LOG_ENTRIES : Nat := 1000

/-- `addLog`: push the new line, then if the buffer exceeds
`MAX_LOG_ENTRIES`, `splice(0, length - MAX_LOG_ENTRIES)` — drop just enough
of the oldest entries to return to the cap. -/
def addLog (logs : List String) (log : String) : List String :=
  let pushed := logs ++ [log]
  if MAX_LOG_ENTRIES < pushed.length then
    pushed.drop (pushed.length - MAX_LOG_ENTRIES)
  else
    pushed

/-! ## Target registry (`updateCDPTargets`) -/

/-- `updateCDPTargets`: require a debug port, issue the discovery request,
and only on success replace the cached target list and stamp
`lastTargetUpdate` with the current time. Returns the result together with
the post-state of the (in TypeScript, mutated-in-place) record. -/
def updateCDPTargets (env : CDPEnv) (now : Nat) (p : ElectronProcess) :
    Except CdpError (List CDPTarget) × ElectronProcess :=
  match p.debugPort with
  | none => (Except.error CdpError.noDebugPort, p)
  | some port =>
    match env.fetchList port with
    | Except.error e => (Except.error (CdpError.discoveryFailed e), p)
    | Except.ok targets =>
      (Except.ok targets,
        { p with targets := some targets, lastTargetUpdate := some now })

/-! ## Session client factory (`connectToCDPTarget`) -/

/-- The refresh condition of `connectToCDPTarget`:
`!targets || !lastTargetUpdate || now - lastTargetUpdate > 5000`. -/
def needsRefresh (now : Nat) (p : ElectronProcess) : Bool :=
  match p.targets, p.lastTargetUpdate with
  | some _, some t => decide (5000 < now - t)
  | _, _ => true

/-- `connectToCDPTarget`: require a debug port; refresh the target cache when
stale or absent (a refresh failure is rethrown by the surrounding
`try`/`catch`); look the target up in the cache; open a CDP connection and
store it as the record's active session. -/
def connectToCDPTarget (env : CDPEnv) (now : Nat) (p : ElectronProcess)
    (targetId : String) : Except CdpError Nat × ElectronProcess :=
  match p.debugPort with
  | none => (Except.error CdpError.noDebugPort, p)
  | some port =>
    match (if needsRefresh now p then updateCDPTargets env now p
           else (Except.ok (p.targets.getD []), p)) with
    | (Except.error e, p1) => (Except.error e, p1)
    | (Except.ok _, p1) =>
      match (p1.targets.getD []).find? (fun t => t.id == targetId) with
      | none => (Except.error (CdpError.targetNotFound targetId), p1)
      | some _ =>
        match env.connect targetId port with
        | Except.error e => (Except.error (CdpError.connectFailed e), p1)
        | Except.ok client =>
          (Except.ok client, { p1 with cdpClient := some client })

/-! ## Command executor (`executeCDPCommand`) -/

/-- `executeCDPCommand`: reuse the record's active session if present,
otherwise connect via `connectToCDPTarget`; then send `"{domain}.{command}"`
with the given params and return the raw reply. -/
def executeCDPCommand (env : CDPEnv) (now : Nat) (p : ElectronProcess)
    (targetId domain command : String) (params : Params) :
    Except CdpError Reply × ElectronProcess :=
  match p.cdpClient with
  | some client =>
    match env.send client (domain ++ "." ++ command) params with
    | Except.error e => (Except.error (CdpError.sendFailed e), p)
    | Except.ok r => (Except.ok r, p)
  | none =>
    match connectToCDPTarget env now p targetId with
    | (Except.error e, p1) => (Except.error e, p1)
    | (Except.ok client, p1) =>
      match env.send client (domain ++ "." ++ command) params with
      | Except.error e => (Except.error (CdpError.sendFailed e), p1)
      | Except.ok r => (Except.ok r, p1)

/-! ## String helpers

JavaScript's `String.prototype.split` with a one-character separator and
`String.prototype.startsWith`, modelled structurally over the character
list of the string. -/

/-- `split(sep)` on a character list: `"" → [""]`, and a separator at either
end yields an empty segment, exactly as in JavaScript. -/
def splitOnChar (sep : Char) : List Char → List (List Char)
  | [] => [[]]
  | c :: rest =>
    match splitOnChar sep rest with
    | g :: gs => if c = sep then [] :: g :: gs else (c :: g) :: gs
    | [] => [[c]]

/-- `uri.split('/')` as a list of strings. -/
def strSplitSlash (s : String) : List String :=
  (splitOnChar '/' s.data).map List.asString

/-- `s.startsWith(pre)`. -/
def strStartsWith (s pre : String) : Bool :=
  s.data.take pre.data.length == pre.data

/-! ## Application supervisor (`startElectronApp`, `stopElectronApp`) -/

/-- Process identifier generation: `` const id = `electron-${Date.now()}` ``. -/
def mkProcessId (nowMs : Nat) : String :=
  "electron-" ++ Nat.repr nowMs

/-- `path.basename`: last path component. -/
def basename (p : String) : String :=
  ((splitOnChar '/' p.data).map List.asString).getLastD p

/-- Port allocation errors of `startElectronApp`:
`No available debug port found in range 9222-9999` and
`` `Debug port ${debugPort} is not available` ``. -/
inductive StartError
  | noPortAvailable
  | portUnavailable (port : Nat)
  deriving Repr, DecidableEq

/-- The scan `for (let port = 9222; port <= 9999; port++)` picking the first
available port. -/
def scanPorts (avail : Nat → Bool) : Option Nat :=
  (List.range' 9222 778).find? avail

/-- Registration tail of `startElectronApp`: build the record, put it in the
store, then poll `updateCDPTargets` every 500 ms until success or timeout.
`poll` abstracts the outcome of that bounded polling loop: `none` means no
discovery attempt succeeded within the timeout (the record keeps an empty
cache and stays `running`); `some (ts, t)` means the first successful
discovery returned `ts` at time `t`. -/
def startRegister (nowMs : Nat) (spawnPid : Nat) (st : Store)
    (appPath : String) (port : Nat) (poll : Option (List CDPTarget × Nat)) :
    Except StartError ElectronProcess × Store :=
  let id := mkProcessId nowMs
  let rec0 : ElectronProcess :=
    { id := id
      name := basename appPath
      status := ProcStatus.running
      pid := some spawnPid
      debugPort := some port
      startTime := nowMs
      logs := []
      appPath := appPath
      cdpClient := none
      targets := none
      lastTargetUpdate := none }
  let rec1 :=
    match poll with
    | none => rec0
    | some (ts, t) => { rec0 with targets := some ts, lastTargetUpdate := some t }
  (Except.ok rec1, storeSet st id rec1)

/-- `startElectronApp`: allocate the debug port (scan 9222..9999 when none is
given; verify availability when one is given), spawn, register the record in
the store, and poll for CDP readiness. -/
def startElectronApp (avail : Nat → Bool) (nowMs : Nat) (spawnPid : Nat)
    (st : Store) (appPath : String) (debugPort : Option Nat)
    (poll : Option (List CDPTarget × Nat)) :
    Except StartError ElectronProcess × Store :=
  match debugPort with
  | none =>
    match scanPorts avail with
    | none => (Except.error StartError.noPortAvailable, st)
    | some port => startRegister nowMs spawnPid st appPath port poll
  | some port =>
    if avail port then
      startRegister nowMs spawnPid st appPath port poll
    else
      (Except.error (StartError.portUnavailable port), st)

/-- Observable side effects of `stopElectronApp` beyond the store update:
closing the CDP session (with its handle) and killing the OS process. -/
inductive StopAction
  | closeSession (handle : Nat)
  | killProcess
  deriving Repr, DecidableEq

/-- `stopElectronApp`: return `false` when no record exists; otherwise close
any open CDP session, kill the OS process, mark the record stopped, delete it
from the store, and return `true`. -/
def stopElectronApp (st : Store) (id : String) :
    Bool × Store × List StopAction :=
  match storeGet st id with
  | none => (false, st, [])
  | some p =>
    let closeActs :=
      match p.cdpClient with
      | some c => [StopAction.closeSession c]
      | none => []
    (true, storeDelete st id, closeActs ++ [StopAction.killProcess])

/-! ## Per-process debug info (`getElectronDebugInfo`) -/

/-- The `number | 'unavailable'` type of the internal metric variables of
`getElectronDebugInfo`. JavaScript numbers are modelled as rationals. -/
inductive MetricValue
  | unavailable
  | num (v : ℚ)
  deriving Repr, DecidableEq

/-- The coercion applied when building the returned `ProcessInfo`:
`typeof x === 'number' ? x : 0`. -/
def metricOrZero : MetricValue → ℚ
  | MetricValue.num v => v
  | MetricValue.unavailable => 0

/-- One entry of the `metrics` array of a `Performance.getMetrics` reply,
after the source's cast to `Array<{ name: string; value: number }>`. -/
structure PerfMetric where
  name : String
  value : ℚ
  deriving Repr, DecidableEq

/-- Outcome of `cdpClient.send('Performance.getMetrics')`, classified per the
source's runtime guard: `Except.error` when the send rejects; `Except.ok
none` when the reply is not an object carrying a `metrics` array; `Except.ok
(some ms)` when it is. -/
abbrev PerfOutcome := Except String (Option (List PerfMetric))

/-- The four internal metric variables of `getElectronDebugInfo`. -/
structure MetricsQuad where
  mainCpu : MetricValue
  mainMem : MetricValue
  rendCpu : MetricValue
  rendMem : MetricValue
  deriving Repr, DecidableEq

/-- The metrics block of `getElectronDebugInfo`: all four variables start as
`'unavailable'`; only when a CDP client exists and the metrics call succeeds
are the `CPUUsage` / `JSHeapUsedSize` entries looked up, the renderer value
being estimated as half of the main one. A missing entry leaves the
corresponding pair `'unavailable'`. -/
def computeMetrics (cdpClient : Option Nat) (perf : PerfOutcome) : MetricsQuad :=
  match cdpClient with
  | none => ⟨MetricValue.unavailable, MetricValue.unavailable,
             MetricValue.unavailable, MetricValue.unavailable⟩
  | some _ =>
    match perf with
    | Except.error _ => ⟨MetricValue.unavailable, MetricValue.unavailable,
                         MetricValue.unavailable, MetricValue.unavailable⟩
    | Except.ok none => ⟨MetricValue.unavailable, MetricValue.unavailable,
                         MetricValue.unavailable, MetricValue.unavailable⟩
    | Except.ok (some metrics) =>
      let cpuMetric := metrics.find? (fun m => m.name == "CPUUsage")
      let memoryMetric := metrics.find? (fun m => m.name == "JSHeapUsedSize")
      let cpus :=
        match cpuMetric with
        | some m => (MetricValue.num m.value, MetricValue.num (m.value / 2))
        | none => (MetricValue.unavailable, MetricValue.unavailable)
      let mems :=
        match memoryMetric with
        | some m => (MetricValue.num m.value, MetricValue.num (m.value / 2))
        | none => (MetricValue.unavailable, MetricValue.unavailable)
      ⟨cpus.1, mems.1, cpus.2, mems.2⟩

/-- `interface ElectronWebContentsInfo`. -/
structure ElectronWebContentsInfo where
  id : Nat
  url : String
  title : String
  debuggable : Bool
  debugPort : Option Nat
  targetId : Option String
  deriving Repr, DecidableEq

/-- `interface ProcessInfo` — note `cpuUsage` and `memoryUsage` are declared
as plain numbers. -/
structure ProcessInfo where
  pid : Nat
  cpuUsage : ℚ
  memoryUsage : ℚ
  status : String
  deriving Repr, DecidableEq

/-- `interface ElectronDebugInfo` (with `processes.main` / `processes.renderers`
flattened into two fields). -/
structure ElectronDebugInfo where
  webContents : List ElectronWebContentsInfo
  mainProcess : ProcessInfo
  renderers : List ProcessInfo
  deriving Repr, DecidableEq

/-- The web-contents list of `getElectronDebugInfo`: map the cached targets,
or a single synthetic entry when no target cache exists. -/
def webContentsOf (p : ElectronProcess) : List ElectronWebContentsInfo :=
  match p.targets with
  | some ts =>
    ts.enum.map (fun it =>
      { id := it.1 + 1
        url := it.2.url
        title := it.2.title
        debuggable := it.2.webSocketDebuggerUrl.isSome
        debugPort := p.debugPort
        targetId := some it.2.id })
  | none =>
    [{ id := 1
       url := "file://" ++ p.appPath
       title := p.name
       debuggable := true
       debugPort := p.debugPort
       targetId := none }]

/-- `getElectronDebugInfo`: `null` unless the record exists and is running;
refresh the target cache, swallowing a refresh failure; derive the
web-contents list from the (possibly just-refreshed) cache; compute the
best-effort metrics; and assemble the reply, coercing non-numeric metric
values to `0` and defaulting pids with `|| 0` / `+ 1`. -/
def getElectronDebugInfo (env : CDPEnv) (now : Nat) (perf : PerfOutcome)
    (st : Store) (id : String) : Option ElectronDebugInfo × Store :=
  match storeGet st id with
  | none => (none, st)
  | some p =>
    if p.status ≠ ProcStatus.running then (none, st)
    else
      let p1 := (updateCDPTargets env now p).2
      let quad := computeMetrics p1.cdpClient perf
      (some
        { webContents := webContentsOf p1
          mainProcess :=
            { pid := p1.pid.getD 0
              cpuUsage := metricOrZero quad.mainCpu
              memoryUsage := metricOrZero quad.mainMem
              status := "running" }
          renderers :=
            [{ pid := p1.pid.getD 0 + 1
               cpuUsage := metricOrZero quad.rendCpu
               memoryUsage := metricOrZero quad.rendMem
               status := "running" }] },
        storeSet st id p1)

/-! ## Resource URI routing (`src/resourceRouting.ts`) -/

def ELECTRON_INFO : String := "electron://info"
def ELECTRON_PROCESS : String := "electron://process/"
def ELECTRON_LOGS : String := "electron://logs/"
def ELECTRON_CDP : String := "electron://cdp/"
def ELECTRON_TARGETS : String := "electron://targets"

/-- `type ParsedResourceRoute`. -/
inductive ParsedResourceRoute
  | info
  | targets
  | process (processId : String)
  | logs (processId : String)
  | cdp (processId targetId : String) (commandPath : Option String)
  | invalidCdp
  | unknown
  deriving Repr, DecidableEq

/-- `parseElectronResourceUri`, transcribed clause by clause. The `cdp`
branch splits the remainder on `/`; fewer than two segments or an empty
identifier segment give `invalidCdp`; remaining segments are re-joined into
the command path, an empty join counting as no command path (`!commandPath`). -/
def parseElectronResourceUri (uri : String) : ParsedResourceRoute :=
  if uri = ELECTRON_INFO then ParsedResourceRoute.info
  else if uri = ELECTRON_TARGETS then ParsedResourceRoute.targets
  else if strStartsWith uri ELECTRON_CDP then
    let path := uri.drop ELECTRON_CDP.length
    let segments := strSplitSlash path
    match segments with
    | s0 :: s1 :: rest =>
      if s0 = "" ∨ s1 = "" then ParsedResourceRoute.invalidCdp
      else
        let joined := String.intercalate "/" rest
        if rest = [] ∨ joined = "" then ParsedResourceRoute.cdp s0 s1 none
        else ParsedResourceRoute.cdp s0 s1 (some joined)
    | _ => ParsedResourceRoute.invalidCdp
  else if strStartsWith uri ELECTRON_PROCESS ∧ uri.drop ELECTRON_PROCESS.length ≠ "" then
    ParsedResourceRoute.process (uri.drop ELECTRON_PROCESS.length)
  else if strStartsWith uri ELECTRON_LOGS ∧ uri.drop ELECTRON_LOGS.length ≠ "" then
    ParsedResourceRoute.logs (uri.drop ELECTRON_LOGS.length)
  else ParsedResourceRoute.unknown

/-- The command-path validation of the `cdp` branch of the
`ReadResourceRequestSchema` handler: split on `/`, and reject unless there
are exactly two non-empty parts (`commandParts.length !== 2 ||
!commandParts[0] || !commandParts[1]`). -/
def parseCdpCommandParts (commandPath : String) :
    Except String (String × String) :=
  match strSplitSlash commandPath with
  | [d, m] =>
    if d = "" ∨ m = "" then
      Except.error ("Invalid CDP command format: " ++ commandPath)
    else
      Except.ok (d, m)
  | _ => Except.error ("Invalid CDP command format: " ++ commandPath)

/-! ## Decimal representation facts

`mkProcessId` embeds the start time through `Nat.repr`; to reason about
identifier collisions we show `Nat.repr` is injective, via an explicit
most-significant-first digit list and an evaluation function. -/

/-- Most-significant-first decimal digit characters of `n`. -/
def decDigits (n : Nat) : List Char :=
  if h : n / 10 = 0 then [Nat.digitChar (n % 10)]
  else decDigits (n / 10) ++ [Nat.digitChar (n % 10)]
termination_by n
decreasing_by
  have hn : n ≠ 0 := by
    intro h0
    rw [h0] at h
    simp at h
  exact Nat.div_lt_self (Nat.pos_of_ne_zero hn) (by decide)

/-- Evaluate a most-significant-first decimal digit string. -/
def valOfDigits (cs : List Char) : Nat :=
  cs.foldl (fun acc c => acc * 10 + (c.toNat - 48)) 0

/-! ## Concrete fixtures used by witnesses and counterexamples -/

/-- A target with identifier `t1`. -/
def tgtT1 : CDPTarget :=
  { id := "t1", type := "page", title := "Main", url := "http://localhost/",
    webSocketDebuggerUrl := some "ws://localhost:9222/devtools/page/t1" }

/-- A running record whose target cache contains `t1` but is stale at time
6000 (last refresh at 0), with no active session. -/
def recStaleCache : ElectronProcess :=
  { id := "electron-1", name := "app.js", status := ProcStatus.running,
    pid := some 10, debugPort := some 9222, startTime := 0, logs := [],
    appPath := "/a/app.js", cdpClient := none, targets := some [tgtT1],
    lastTargetUpdate := some 0 }

/-- An environment whose discovery endpoint always fails. -/
def envNoDisc : CDPEnv :=
  { fetchList := fun _ => Except.error "ECONNREFUSED"
    connect := fun _ _ => Except.ok 7
    send := fun _ _ _ => Except.ok "raw" }

/-- A running record with an active session handle `1` and an empty (fresh
enough) target cache. -/
def recMetricsClient : ElectronProcess :=
  { id := "electron-1", name := "app.js", status := ProcStatus.running,
    pid := some 100, debugPort := some 9222, startTime := 0, logs := [],
    appPath := "/a/app.js", cdpClient := some 1, targets := some [],
    lastTargetUpdate := some 0 }

/-- Store holding `recMetricsClient`. -/
def stMetrics : Store := [("electron-1", recMetricsClient)]

/-- An environment whose discovery succeeds with an empty target list and
whose sends echo the command name back. -/
def envEcho : CDPEnv :=
  { fetchList := fun _ => Except.ok []
    connect := fun _ _ => Except.ok 1
    send := fun _ m _ => Except.ok ("reply:" ++ m) }

/-- The record produced by a successful start at time 111 with pid 1 on port
9222 and no discovery success during startup polling. -/
def recStart111 : ElectronProcess :=
  { id := mkProcessId 111, name := "app.js", status := ProcStatus.running,
    pid := some 1, debugPort := some 9222, startTime := 111, logs := [],
    appPath := "/a/app.js", cdpClient := none, targets := none,
    lastTargetUpdate := none }

/-- The record produced by a successful start at time 222 with pid 5. -/
def recStart222 : ElectronProcess :=
  { id := mkProcessId 222, name := "app.js", status := ProcStatus.running,
    pid := some 5, debugPort := some 9222, startTime := 222, logs := [],
    appPath := "/a/app.js", cdpClient := none, targets := none,
    lastTargetUpdate := none }

/-- A running record with an active session handle `2`. -/
def recWithClient : ElectronProcess :=
  { id := "electron-7", name := "app.js", status := ProcStatus.running,
    pid := some 20, debugPort := some 9222, startTime := 0, logs := [],
    appPath := "/a/app.js", cdpClient := some 2, targets := some [tgtT1],
    lastTargetUpdate := some 0 }

/-- Store holding `recWithClient` under `electron-7`. -/
def stOne : Store := [("electron-7", recWithClient)]

/-- Whether the CPU metric is unavailable from a `Performance.getMetrics`
outcome: the call failed, the reply carried no metrics array, or the array
has no `CPUUsage` entry. -/
def cpuMetricMissing (perf : PerfOutcome) : Bool :=
  match perf with
  | Except.error _ => true
  | Except.ok none => true
  | Except.ok (some ms) => (ms.find? (fun m => m.name == "CPUUsage")).isNone

/-- Whether the memory metric is unavailable from a `Performance.getMetrics`
outcome. -/
def memMetricMissing (perf : PerfOutcome) : Bool :=
  match perf with
  | Except.error _ => true
  | Except.ok none => true
  | Except.ok (some ms) =>
    (ms.find? (fun m => m.name == "JSHeapUsedSize")).isNone

/-! ## Helper lemmas -/

theorem addLog_length_le (logs : List String) (log : String) :
    (addLog logs log).length ≤ MAX_LOG_ENTRIES := by
  unfold addLog
  by_cases h : MAX_LOG_ENTRIES < (logs ++ [log]).length
  · simp only [h, if_pos, List.length_drop]
    omega
  · simp only [h, if_neg, not_false_iff]
    omega

theorem addLog_getLast? (logs : List String) (log : String) :
    (addLog logs log).getLast? = some log := by
  unfold addLog
  by_cases h : MAX_LOG_ENTRIES < (logs ++ [log]).length
  · simp only [h, if_pos]
    have hlen : (logs ++ [log]).length = logs.length + 1 := by simp
    have hle : (logs ++ [log]).length - MAX_LOG_ENTRIES ≤ logs.length := by
      unfold MAX_LOG_ENTRIES at *
      omega
    rw [List.drop_append_of_le_length hle]
    exact List.getLast?_concat _
  · simp only [h, if_neg, not_false_iff]
    exact List.getLast?_concat _

theorem splitOnChar_ne_nil (sep : Char) (cs : List Char) :
    splitOnChar sep cs ≠ [] := by
  cases cs with
  | nil => simp [splitOnChar]
  | cons c rest =>
    simp only [splitOnChar]
    cases h : splitOnChar sep rest with
    | nil => simp
    | cons g gs =>
      by_cases hc : c = sep <;> simp [hc]

theorem toDigitsCore_eq_decDigits :
    ∀ (f n : Nat) (ds : List Char), n < f →
      Nat.toDigitsCore 10 f n ds = decDigits n ++ ds := by
  intro f
  induction f with
  | zero => intro n ds h; omega
  | succ f ih =>
    intro n ds h
    rw [decDigits]
    by_cases hdiv : n / 10 = 0
    · simp [Nat.toDigitsCore, hdiv]
    · have h10 : 10 ≤ n := by
        by_contra hlt
        exact hdiv (Nat.div_eq_of_lt (by omega))
      have hlt : n / 10 < f := by
        have := Nat.div_lt_self (by omega : 0 < n) (by decide : 1 < 10)
        omega
      simp only [Nat.toDigitsCore, hdiv, if_false]
      rw [ih (n / 10) _ hlt]
      simp

theorem repr_data_eq_decDigits (n : Nat) :
    (Nat.repr n).data = decDigits n := by
  show (Nat.toDigitsCore 10 (n + 1) n []).asString.data = decDigits n
  have h := toDigitsCore_eq_decDigits (n + 1) n [] (Nat.lt_succ_self n)
  simp [List.asString, h]

theorem digitChar_toNat_of_lt (d : Nat) (h : d < 10) :
    (Nat.digitChar d).toNat = 48 + d := by
  interval_cases d <;> rfl

theorem decDigits_foldl (n : Nat) :
    ∀ a : Nat,
      (decDigits n).foldl (fun acc c => acc * 10 + (c.toNat - 48)) a =
        a * 10 ^ (decDigits n).length + n := by
  induction n using Nat.strong_induction_on with
  | _ n ih =>
    intro a
    rw [decDigits]
    by_cases hdiv : n / 10 = 0
    · have hn : n < 10 := by
        rcases Nat.lt_or_ge n 10 with h | h
        · exact h
        · exact absurd hdiv (by
            have : 1 ≤ n / 10 := (Nat.one_le_div_iff (by decide)).mpr h
            omega)
      have hmod : n % 10 = n := Nat.mod_eq_of_lt hn
      simp only [hdiv, dif_pos, List.foldl, List.length]
      rw [hmod, digitChar_toNat_of_lt n hn]
      simp
    · have hn : 0 < n := by
        rcases Nat.eq_zero_or_pos n with h | h
        · exact absurd (by rw [h]) hdiv
        · exact h
      have hrec : n / 10 < n := Nat.div_lt_self hn (by decide)
      have hmod : n % 10 < 10 := Nat.mod_lt n (by decide)
      simp only [hdiv, dif_neg, not_false_iff, List.foldl_append, List.foldl,
        List.length_append, List.length_cons, List.length_nil]
      rw [ih (n / 10) hrec a, digitChar_toNat_of_lt (n % 10) hmod]
      have h48 : 48 + n % 10 - 48 = n % 10 := by omega
      rw [h48, pow_succ]
      calc (a * 10 ^ (decDigits (n / 10)).length + n / 10) * 10 + n % 10
          = a * (10 ^ (decDigits (n / 10)).length * 10) +
              (10 * (n / 10) + n % 10) := by ring
        _ = a * (10 ^ (decDigits (n / 10)).length * 10) + n := by
              rw [Nat.div_add_mod]

theorem valOfDigits_decDigits (n : Nat) : valOfDigits (decDigits n) = n := by
  unfold valOfDigits
  rw [decDigits_foldl n 0]
  simp

theorem nat_repr_injective {m n : Nat} (h : Nat.repr m = Nat.repr n) : m = n := by
  have hd : decDigits m = decDigits n := by
    rw [← repr_data_eq_decDigits, ← repr_data_eq_decDigits, h]
  calc m = valOfDigits (decDigits m) := (valOfDigits_decDigits m).symm
    _ = valOfDigits (decDigits n) := by rw [hd]
    _ = n := valOfDigits_decDigits n

theorem mkProcessId_injective {s t : Nat} (h : mkProcessId s = mkProcessId t) :
    s = t := by
  apply nat_repr_injective
  have hdata : ("electron-".data ++ (Nat.repr s).data) =
      ("electron-".data ++ (Nat.repr t).data) := congrArg String.data h
  have := congrArg (List.drop 9) hdata
  rw [List.drop_left' (by rfl), List.drop_left' (by rfl)] at this
  cases hs : Nat.repr s
  case mk => cases ht : Nat.repr t
             case mk =>
               rw [hs, ht] at this
               simp at this
               simp [this]

theorem storeGet_storeDelete (st : Store) (id : String) :
    storeGet (storeDelete st id) id = none := by
  induction st with
  | nil => rfl
  | cons kv tl ih =>
    by_cases hkv : kv.1 == id
    · simp only [storeGet, storeDelete, List.filter_cons, hkv,
        Bool.not_true, Bool.false_eq_true, if_false, cond_false]
      exact ih
    · simp only [Bool.not_eq_true] at hkv
      simp only [storeGet, storeDelete, List.filter_cons, hkv,
        Bool.not_false, cond_true, List.find?_cons, if_true]
      exact ih

/-! ## Claims -/

/-- C6: for every initial log buffer and every nonempty sequence of log
appends, the buffer produced by folding `addLog` has length at most 1000
entries (overflow is truncated from the oldest end), and the
most-recently-appended line is always present as the last element. -/
theorem c6_log_buffer_bounded (init : List String) (appends : List String)
    (h : appends ≠ []) :
    (appends.foldl addLog init).length ≤ MAX_LOG_ENTRIES ∧
    (appends.foldl addLog init).getLast? = appends.getLast? := by
  rcases List.eq_nil_or_concat appends with rfl | ⟨as, a, rfl⟩
  · exact absurd rfl h
  · rw [List.concat_eq_append, List.foldl_append]
    exact ⟨addLog_length_le _ _,
      by rw [List.foldl_cons, List.foldl_nil, addLog_getLast?,
             List.getLast?_concat]⟩

/-- Witness for C6 at a concrete buffer and append sequence. -/
theorem c6_log_buffer_bounded_witness :
    (["line1", "line2"] : List String) ≠ [] ∧
    ((["line1", "line2"] : List String).foldl addLog []).length ≤
      MAX_LOG_ENTRIES ∧
    ((["line1", "line2"] : List String).foldl addLog []).getLast? =
      (["line1", "line2"] : List String).getLast? :=
  ⟨by decide, c6_log_buffer_bounded [] ["line1", "line2"] (by decide)⟩

/-- C4: starting with an explicitly given debug port that is unavailable
fails with `PortUnavailable` and leaves the store unchanged (no record is
registered), regardless of the availability of every other port — so no
fallback scan of 9222..9999 happens. -/
theorem c4_taken_port_fails (avail : Nat → Bool) (nowMs spawnPid : Nat)
    (st : Store) (appPath : String) (port : Nat)
    (poll : Option (List CDPTarget × Nat)) (h : avail port = false) :
    startElectronApp avail nowMs spawnPid st appPath (some port) poll =
      (Except.error (StartError.portUnavailable port), st) := by
  unfold startElectronApp
  simp [h]

/-- Witness for C4: port 9300 is taken while every other port is free; the
start still fails and registers nothing. -/
theorem c4_taken_port_fails_witness :
    (fun p => !(p == 9300)) 9300 = false ∧
    startElectronApp (fun p => !(p == 9300)) 42 7 [] "/a/app.js"
        (some 9300) none =
      (Except.error (StartError.portUnavailable 9300), []) :=
  ⟨rfl, c4_taken_port_fails (fun p => !(p == 9300)) 42 7 [] "/a/app.js"
    9300 none rfl⟩

/-- C5: `updateCDPTargets` is atomic on failure: for a record with a debug
port, a failing discovery call yields `DiscoveryFailed` and returns the
record unchanged (cached target list and last-refresh timestamp intact),
while a successful call replaces the cached list wholesale and stamps the
refresh time. -/
theorem c5_refresh_atomic (env : CDPEnv) (now : Nat) (p : ElectronProcess)
    (port : Nat) (h : p.debugPort = some port) :
    (∀ e, env.fetchList port = Except.error e →
      updateCDPTargets env now p =
        (Except.error (CdpError.discoveryFailed e), p)) ∧
    (∀ ts, env.fetchList port = Except.ok ts →
      updateCDPTargets env now p =
        (Except.ok ts,
          { p with targets := some ts, lastTargetUpdate := some now })) := by
  constructor
  · intro e he
    unfold updateCDPTargets
    simp [h, he]
  · intro ts hts
    unfold updateCDPTargets
    simp [h, hts]

/-- Witness for C5: a concrete failing discovery leaves the concrete record
(with its non-empty cache) untouched. -/
theorem c5_refresh_atomic_witness :
    recStaleCache.debugPort = some 9222 ∧
    envNoDisc.fetchList 9222 = Except.error "ECONNREFUSED" ∧
    updateCDPTargets envNoDisc 3000 recStaleCache =
      (Except.error (CdpError.discoveryFailed "ECONNREFUSED"),
        recStaleCache) :=
  ⟨rfl, rfl,
    (c5_refresh_atomic envNoDisc 3000 recStaleCache 9222 rfl).1
      "ECONNREFUSED" rfl⟩

/-- C7: `stop` on an identifier with no record returns `false` with no side
effect; on an existing record it returns `true`, closes any open session,
kills the OS process, and removes the record, so that a second `stop` on
the same identifier returns `false`. -/
theorem c7_stop_idempotent (st : Store) (id : String) :
    (storeGet st id = none → stopElectronApp st id = (false, st, [])) ∧
    (∀ p, storeGet st id = some p →
      (stopElectronApp st id).1 = true ∧
      storeGet (stopElectronApp st id).2.1 id = none ∧
      (stopElectronApp st id).2.2 =
        (match p.cdpClient with
         | some c => [StopAction.closeSession c]
         | none => []) ++ [StopAction.killProcess] ∧
      (stopElectronApp (stopElectronApp st id).2.1 id).1 = false) := by
  constructor
  · intro h
    unfold stopElectronApp
    rw [h]
  · intro p hp
    have hrest : stopElectronApp st id =
        (true, storeDelete st id,
          (match p.cdpClient with
           | some c => [StopAction.closeSession c]
           | none => []) ++ [StopAction.killProcess]) := by
      unfold stopElectronApp
      rw [hp]
    refine ⟨by rw [hrest], ?_, by rw [hrest], ?_⟩
    · rw [hrest]
      exact storeGet_storeDelete st id
    · rw [hrest]
      show (stopElectronApp (storeDelete st id) id).1 = false
      unfold stopElectronApp
      rw [storeGet_storeDelete]

/-- Witness for C7 on a concrete store: first stop succeeds and removes the
record, second stop returns `false`. -/
theorem c7_stop_idempotent_witness :
    storeGet stOne "electron-7" = some recWithClient ∧
    (stopElectronApp stOne "electron-7").1 = true ∧
    storeGet (stopElectronApp stOne "electron-7").2.1 "electron-7" = none ∧
    (stopElectronApp (stopElectronApp stOne "electron-7").2.1
        "electron-7").1 = false :=
  ⟨rfl,
    ((c7_stop_idempotent stOne "electron-7").2 recWithClient rfl).1,
    ((c7_stop_idempotent stOne "electron-7").2 recWithClient rfl).2.1,
    ((c7_stop_idempotent stOne "electron-7").2 recWithClient rfl).2.2.2⟩

/-- C8: resource-URI parsing sends a `cdp` URI missing an identifier
segment (`electron://cdp/p1`) to `invalidCdp`, parses
`electron://cdp/p1/t1/Page/reload` as a `cdp` route with command path
`Page/reload`, and the dispatch-time validation rejects every command path
that does not split into exactly two non-empty segments. -/
theorem c8_resource_routing :
    parseElectronResourceUri "electron://cdp/p1" =
      ParsedResourceRoute.invalidCdp ∧
    parseElectronResourceUri "electron://cdp/p1/t1/Page/reload" =
      ParsedResourceRoute.cdp "p1" "t1" (some "Page/reload") ∧
    ∀ commandPath : String,
      ¬((strSplitSlash commandPath).length = 2 ∧
        "" ∉ strSplitSlash commandPath) →
      (parseCdpCommandParts commandPath).isOk = false := by
  refine ⟨by decide, by decide, ?_⟩
  intro commandPath hshape
  unfold parseCdpCommandParts
  match hsplit : strSplitSlash commandPath with
  | [] => rfl
  | [d] => rfl
  | [d, m] =>
    rw [hsplit] at hshape
    show (if d = "" ∨ m = "" then
        Except.error ("Invalid CDP command format: " ++ commandPath)
      else Except.ok (d, m)).isOk = false
    by_cases hd : d = ""
    · rw [if_pos (Or.inl hd)]
      rfl
    · by_cases hm : m = ""
      · rw [if_pos (Or.inr hm)]
        rfl
      · exact absurd ⟨rfl, by simp [hd, hm, eq_comm]⟩ hshape
  | d :: m :: x :: rest => rfl

/-- Witness for C8's dispatch-validation clause at the one-segment command
path `Page`. -/
theorem c8_resource_routing_witness :
    ¬((strSplitSlash "Page").length = 2 ∧ "" ∉ strSplitSlash "Page") ∧
    (parseCdpCommandParts "Page").isOk = false :=
  ⟨by decide, c8_resource_routing.2.2 "Page" (by decide)⟩

/-- C9: the command executor reuses the record's active session when one is
present (otherwise the session obtained from `connectToCDPTarget`), sends
the single command string `domain.method` with exactly the given params,
and returns the session's reply unmodified. -/
theorem c9_execute_raw_reply (env : CDPEnv) (now : Nat) (p : ElectronProcess)
    (targetId domain command : String) (params : Params) :
    (∀ client r, p.cdpClient = some client →
      env.send client (domain ++ "." ++ command) params = Except.ok r →
      executeCDPCommand env now p targetId domain command params =
        (Except.ok r, p)) ∧
    (∀ client p1 r, p.cdpClient = none →
      connectToCDPTarget env now p targetId = (Except.ok client, p1) →
      env.send client (domain ++ "." ++ command) params = Except.ok r →
      executeCDPCommand env now p targetId domain command params =
        (Except.ok r, p1)) := by
  constructor
  · intro client r hc hs
    simp [executeCDPCommand, hc, hs]
  · intro client p1 r hc hconn hs
    simp [executeCDPCommand, hc, hconn, hs]

/-- Witness for C9: a `Runtime.evaluate` command over an existing session is
forwarded as the single string `Runtime.evaluate` with the given params,
and the session's raw reply comes back unmodified. -/
theorem c9_execute_raw_reply_witness :
    recWithClient.cdpClient = some 2 ∧
    envEcho.send 2 ("Runtime" ++ "." ++ "evaluate") [("expression", "1+1")] =
      Except.ok "reply:Runtime.evaluate" ∧
    executeCDPCommand envEcho 0 recWithClient "t1" "Runtime" "evaluate"
        [("expression", "1+1")] =
      (Except.ok "reply:Runtime.evaluate", recWithClient) :=
  ⟨rfl, rfl,
    (c9_execute_raw_reply envEcho 0 recWithClient "t1" "Runtime" "evaluate"
        [("expression", "1+1")]).1 2 "reply:Runtime.evaluate" rfl rfl⟩

/-- C10: when the record already holds an active session, the executor
ignores the `targetId` argument and the cached target list entirely — the
result is the same for any two target ids, is unchanged under any
modification of the target cache, and is never `TargetNotFound`. -/
theorem c10_targetid_ignored (env : CDPEnv) (now : Nat) (p : ElectronProcess)
    (tid1 tid2 domain command : String) (params : Params) (client : Nat)
    (h : p.cdpClient = some client) :
    executeCDPCommand env now p tid1 domain command params =
      executeCDPCommand env now p tid2 domain command params ∧
    (∀ ts lu,
      (executeCDPCommand env now
        { p with targets := ts, lastTargetUpdate := lu }
        tid1 domain command params).1 =
      (executeCDPCommand env now p tid1 domain command params).1) ∧
    (∀ t, (executeCDPCommand env now p tid1 domain command params).1 ≠
      Except.error (CdpError.targetNotFound t)) := by
  refine ⟨?_, ?_, ?_⟩
  · unfold executeCDPCommand
    rw [h]
  · intro ts lu
    unfold executeCDPCommand
    simp only [h]
    cases env.send client (domain ++ "." ++ command) params <;> rfl
  · intro t
    unfold executeCDPCommand
    rw [h]
    cases hs : env.send client (domain ++ "." ++ command) params with
    | error e => simp [hs]
    | ok r => simp [hs]

/-- Witness for C10: with an active session, executing against a target id
absent from the cache behaves exactly like executing against any other id
and does not produce `TargetNotFound`. -/
theorem c10_targetid_ignored_witness :
    recWithClient.cdpClient = some 2 ∧
    executeCDPCommand envEcho 0 recWithClient "absent-target" "Page"
        "reload" [] =
      executeCDPCommand envEcho 0 recWithClient "other-target" "Page"
        "reload" [] ∧
    (executeCDPCommand envEcho 0 recWithClient "absent-target" "Page"
        "reload" []).1 ≠
      Except.error (CdpError.targetNotFound "absent-target") :=
  ⟨rfl,
    (c10_targetid_ignored envEcho 0 recWithClient "absent-target"
        "other-target" "Page" "reload" [] 2 rfl).1,
    (c10_targetid_ignored envEcho 0 recWithClient "absent-target"
        "other-target" "Page" "reload" [] 2 rfl).2.2 "absent-target"⟩

theorem updateCDPTargets_cases (env : CDPEnv) (now : Nat)
    (p : ElectronProcess) :
    (∃ e, updateCDPTargets env now p = (Except.error e, p)) ∨
    (∃ ts, updateCDPTargets env now p =
      (Except.ok ts,
        { p with targets := some ts, lastTargetUpdate := some now })) := by
  unfold updateCDPTargets
  split
  · exact Or.inl ⟨_, rfl⟩
  · split
    · exact Or.inl ⟨_, rfl⟩
    · exact Or.inr ⟨_, rfl⟩

theorem updateCDPTargets_error_state (env : CDPEnv) (now : Nat)
    (p : ElectronProcess) (e : CdpError)
    (h : (updateCDPTargets env now p).1 = Except.error e) :
    (updateCDPTargets env now p).2 = p := by
  rcases updateCDPTargets_cases env now p with ⟨e2, hu⟩ | ⟨ts, hu⟩
  · rw [hu]
  · rw [hu] at h
    simp at h

/-- C1 counterexample: a record whose cache is stale (last refresh 5000 ms
before `now = 6000`) and contains the requested target `t1`; the discovery
refresh fails, and `connectToCDPTarget` propagates that failure instead of
proceeding to look `t1` up in the stale cache. -/
theorem c1_stale_refresh_counterexample :
    needsRefresh 6000 recStaleCache = true ∧
    (recStaleCache.targets.getD []).any (fun t => t.id == "t1") = true ∧
    connectToCDPTarget envNoDisc 6000 recStaleCache "t1" =
      (Except.error (CdpError.discoveryFailed "ECONNREFUSED"),
        recStaleCache) :=
  ⟨rfl, rfl, rfl⟩

/-- C1 (amended): whenever `connectToCDPTarget` finds the cache stale or
absent and the discovery refresh fails, it propagates the refresh failure
to its caller and leaves the record unchanged; it does not fall back to
the stale cache. -/
theorem c1_connect_propagates_refresh_failure (env : CDPEnv) (now : Nat)
    (p : ElectronProcess) (targetId : String) (e : CdpError)
    (h1 : needsRefresh now p = true)
    (h2 : (updateCDPTargets env now p).1 = Except.error e) :
    connectToCDPTarget env now p targetId = (Except.error e, p) := by
  have hstate := updateCDPTargets_error_state env now p e h2
  have hu : updateCDPTargets env now p = (Except.error e, p) := by
    cases hx : updateCDPTargets env now p with
    | mk a b =>
      rw [hx] at h2 hstate
      simp only at h2 hstate
      rw [h2, hstate]
  cases hdp : p.debugPort with
  | none =>
    have he : CdpError.noDebugPort = e := by
      unfold updateCDPTargets at h2
      rw [hdp] at h2
      simpa using h2
    unfold connectToCDPTarget
    rw [hdp, ← he]
  | some port =>
    unfold connectToCDPTarget
    rw [hdp]
    simp [h1, hu]

/-- Witness for C1 (amended) at the concrete stale record and failing
discovery environment. -/
theorem c1_connect_propagates_refresh_failure_witness :
    needsRefresh 6000 recStaleCache = true ∧
    (updateCDPTargets envNoDisc 6000 recStaleCache).1 =
      Except.error (CdpError.discoveryFailed "ECONNREFUSED") ∧
    connectToCDPTarget envNoDisc 6000 recStaleCache "t2" =
      (Except.error (CdpError.discoveryFailed "ECONNREFUSED"),
        recStaleCache) :=
  ⟨rfl, rfl,
    c1_connect_propagates_refresh_failure envNoDisc 6000 recStaleCache "t2"
      (CdpError.discoveryFailed "ECONNREFUSED") rfl rfl⟩

/-- C2 counterexample: for a running record with an active session whose
`Performance.getMetrics` call fails, the returned debug info carries the
number `0` in its CPU and memory fields — not an `unavailable` sentinel —
and is indistinguishable from a genuine zero measurement. -/
theorem c2_metrics_counterexample :
    ((getElectronDebugInfo envEcho 0 (Except.error "metrics failed")
        stMetrics "electron-1").1.map (fun i => i.mainProcess.cpuUsage)) =
      some 0 ∧
    ((getElectronDebugInfo envEcho 0 (Except.error "metrics failed")
        stMetrics "electron-1").1.map (fun i => i.mainProcess.memoryUsage)) =
      some 0 ∧
    ((getElectronDebugInfo envEcho 0
        (Except.ok (some [{ name := "CPUUsage", value := 0 },
                          { name := "JSHeapUsedSize", value := 0 }]))
        stMetrics "electron-1").1.map (fun i => i.mainProcess.cpuUsage)) =
      some 0 :=
  ⟨rfl, rfl, rfl⟩

theorem computeMetrics_cpu_missing (client : Option Nat) (perf : PerfOutcome)
    (h : cpuMetricMissing perf = true) :
    (computeMetrics client perf).mainCpu = MetricValue.unavailable ∧
    (computeMetrics client perf).rendCpu = MetricValue.unavailable := by
  cases client with
  | none => exact ⟨rfl, rfl⟩
  | some c =>
    cases perf with
    | error e => exact ⟨rfl, rfl⟩
    | ok o =>
      cases o with
      | none => exact ⟨rfl, rfl⟩
      | some ms =>
        unfold cpuMetricMissing at h
        rw [Option.isNone_iff_eq_none] at h
        constructor <;> simp [computeMetrics, h]

theorem computeMetrics_mem_missing (client : Option Nat) (perf : PerfOutcome)
    (h : memMetricMissing perf = true) :
    (computeMetrics client perf).mainMem = MetricValue.unavailable ∧
    (computeMetrics client perf).rendMem = MetricValue.unavailable := by
  cases client with
  | none => exact ⟨rfl, rfl⟩
  | some c =>
    cases perf with
    | error e => exact ⟨rfl, rfl⟩
    | ok o =>
      cases o with
      | none => exact ⟨rfl, rfl⟩
      | some ms =>
        unfold memMetricMissing at h
        rw [Option.isNone_iff_eq_none] at h
        constructor <;> simp [computeMetrics, h]

/-- C2 (amended): when the metrics call fails or a specific metric is
absent, the internal metric variables hold the `unavailable` sentinel and
no metric number is derived from the failed call — but the returned debug
info coerces those sentinels to the number `0` in its CPU/memory fields
(for both the main process and the renderer estimate). -/
theorem c2_metrics_unavailable_as_zero (env : CDPEnv) (now : Nat)
    (perf : PerfOutcome) (st : Store) (id : String) (p : ElectronProcess)
    (hget : storeGet st id = some p)
    (hrun : p.status = ProcStatus.running) :
    (cpuMetricMissing perf = true →
      (computeMetrics ((updateCDPTargets env now p).2).cdpClient
          perf).mainCpu = MetricValue.unavailable ∧
      ((getElectronDebugInfo env now perf st id).1.map
        (fun i => i.mainProcess.cpuUsage)) = some 0 ∧
      ((getElectronDebugInfo env now perf st id).1.map
        (fun i => i.renderers.map (fun r => r.cpuUsage))) = some [0]) ∧
    (memMetricMissing perf = true →
      (computeMetrics ((updateCDPTargets env now p).2).cdpClient
          perf).mainMem = MetricValue.unavailable ∧
      ((getElectronDebugInfo env now perf st id).1.map
        (fun i => i.mainProcess.memoryUsage)) = some 0 ∧
      ((getElectronDebugInfo env now perf st id).1.map
        (fun i => i.renderers.map (fun r => r.memoryUsage))) = some [0]) := by
  have hinfo : (getElectronDebugInfo env now perf st id).1 =
      some
        { webContents := webContentsOf ((updateCDPTargets env now p).2)
          mainProcess :=
            { pid := ((updateCDPTargets env now p).2).pid.getD 0
              cpuUsage := metricOrZero
                (computeMetrics ((updateCDPTargets env now p).2).cdpClient
                  perf).mainCpu
              memoryUsage := metricOrZero
                (computeMetrics ((updateCDPTargets env now p).2).cdpClient
                  perf).mainMem
              status := "running" }
          renderers :=
            [{ pid := ((updateCDPTargets env now p).2).pid.getD 0 + 1
               cpuUsage := metricOrZero
                 (computeMetrics ((updateCDPTargets env now p).2).cdpClient
                   perf).rendCpu
               memoryUsage := metricOrZero
                 (computeMetrics ((updateCDPTargets env now p).2).cdpClient
                   perf).rendMem
               status := "running" }] } := by
    unfold getElectronDebugInfo
    rw [hget]
    simp [hrun]
  constructor
  · intro hcpu
    obtain ⟨hmain, hrend⟩ := computeMetrics_cpu_missing
      ((updateCDPTargets env now p).2).cdpClient perf hcpu
    rw [hinfo]
    exact ⟨hmain, by simp [hmain, metricOrZero], by simp [hrend, metricOrZero]⟩
  · intro hmem
    obtain ⟨hmain, hrend⟩ := computeMetrics_mem_missing
      ((updateCDPTargets env now p).2).cdpClient perf hmem
    rw [hinfo]
    exact ⟨hmain, by simp [hmain, metricOrZero], by simp [hrend, metricOrZero]⟩

/-- Witness for C2 (amended) at the concrete record and a failing metrics
call. -/
theorem c2_metrics_unavailable_as_zero_witness :
    storeGet stMetrics "electron-1" = some recMetricsClient ∧
    recMetricsClient.status = ProcStatus.running ∧
    cpuMetricMissing (Except.error "metrics failed") = true ∧
    ((getElectronDebugInfo envEcho 0 (Except.error "metrics failed")
        stMetrics "electron-1").1.map (fun i => i.mainProcess.cpuUsage)) =
      some 0 :=
  ⟨rfl, rfl, rfl,
    (((c2_metrics_unavailable_as_zero envEcho 0
        (Except.error "metrics failed") stMetrics "electron-1"
        recMetricsClient rfl rfl).1) rfl).2.1⟩

/-- C3 counterexample: two successful starts in the same millisecond
(`Date.now() = 111`) generate the same identifier `electron-111`, and the
second registration displaces the first, leaving a single record in the
store. -/
theorem c3_same_millisecond_counterexample :
    ((startElectronApp (fun _ => true) 111 1 [] "/a/app.js" none none).1.map
      (fun r => r.id)) = Except.ok "electron-111" ∧
    ((startElectronApp (fun _ => true) 111 2
        (startElectronApp (fun _ => true) 111 1 [] "/a/app.js" none none).2
        "/a/app.js" none none).1.map (fun r => r.id)) =
      Except.ok "electron-111" ∧
    (startElectronApp (fun _ => true) 111 2
        (startElectronApp (fun _ => true) 111 1 [] "/a/app.js" none none).2
        "/a/app.js" none none).2.length = 1 :=
  ⟨rfl, rfl, rfl⟩

theorem startRegister_ok_id (nowMs spawnPid : Nat) (st : Store)
    (appPath : String) (port : Nat) (poll : Option (List CDPTarget × Nat))
    (r : ElectronProcess) (s : Store)
    (h : startRegister nowMs spawnPid st appPath port poll =
      (Except.ok r, s)) : r.id = mkProcessId nowMs := by
  cases poll with
  | none =>
    simp only [startRegister, Prod.mk.injEq] at h
    obtain ⟨ha, -⟩ := h
    injection ha with ha
    rw [← ha]
  | some x =>
    obtain ⟨ts, t⟩ := x
    simp only [startRegister, Prod.mk.injEq] at h
    obtain ⟨ha, -⟩ := h
    injection ha with ha
    rw [← ha]

theorem startElectronApp_ok_id (avail : Nat → Bool) (nowMs spawnPid : Nat)
    (st : Store) (appPath : String) (debugPort : Option Nat)
    (poll : Option (List CDPTarget × Nat)) (r : ElectronProcess) (s : Store)
    (h : startElectronApp avail nowMs spawnPid st appPath debugPort poll =
      (Except.ok r, s)) : r.id = mkProcessId nowMs := by
  unfold startElectronApp at h
  cases debugPort with
  | none =>
    cases hscan : scanPorts avail with
    | none =>
      rw [hscan] at h
      simp at h
    | some port =>
      rw [hscan] at h
      exact startRegister_ok_id nowMs spawnPid st appPath port poll r s h
  | some port =>
    have hif : (if avail port = true then
        startRegister nowMs spawnPid st appPath port poll
      else (Except.error (StartError.portUnavailable port), st)) =
        (Except.ok r, s) := h
    cases hav : avail port with
    | true =>
      rw [hav, if_pos rfl] at hif
      exact startRegister_ok_id nowMs spawnPid st appPath port poll r s hif
    | false =>
      rw [hav] at hif
      simp at hif

/-- C3 (amended): two successful start operations whose start timestamps
(milliseconds) differ generate distinct process identifiers; identifiers
are a pure function `electron-{ms}` of the start time, so uniqueness holds
exactly up to millisecond granularity. -/
theorem c3_distinct_times_distinct_ids (avail1 avail2 : Nat → Bool)
    (t1 t2 pid1 pid2 : Nat) (st1 st2 : Store) (ap1 ap2 : String)
    (dp1 dp2 : Option Nat) (poll1 poll2 : Option (List CDPTarget × Nat))
    (r1 r2 : ElectronProcess) (s1 s2 : Store)
    (h1 : startElectronApp avail1 t1 pid1 st1 ap1 dp1 poll1 =
      (Except.ok r1, s1))
    (h2 : startElectronApp avail2 t2 pid2 st2 ap2 dp2 poll2 =
      (Except.ok r2, s2))
    (hne : t1 ≠ t2) : r1.id ≠ r2.id := by
  intro heq
  apply hne
  apply mkProcessId_injective
  rw [← startElectronApp_ok_id avail1 t1 pid1 st1 ap1 dp1 poll1 r1 s1 h1,
    ← startElectronApp_ok_id avail2 t2 pid2 st2 ap2 dp2 poll2 r2 s2 h2]
  exact heq

/-- Witness for C3 (amended): concrete starts at 111 and 222 produce
distinct identifiers. -/
theorem c3_distinct_times_distinct_ids_witness :
    startElectronApp (fun _ => true) 111 1 [] "/a/app.js" none none =
      (Except.ok recStart111, [(mkProcessId 111, recStart111)]) ∧
    startElectronApp (fun _ => true) 222 5 [] "/a/app.js" none none =
      (Except.ok recStart222, [(mkProcessId 222, recStart222)]) ∧
    recStart111.id ≠ recStart222.id :=
  ⟨rfl, rfl,
    c3_distinct_times_distinct_ids (fun _ => true) (fun _ => true) 111 222
      1 5 [] [] "/a/app.js" "/a/app.js" none none none none
      recStart111 recStart222 [(mkProcessId 111, recStart111)]
      [(mkProcessId 222, recStart222)] rfl rfl (by decide)⟩

end ElectronDebugMcp
